import Mathlib

/-!
Shallow embedding of the USB DFU class driver in src/usbdfu.c.

The embedding covers the slot allocator (the global atomic counter
dfu_index together with the set of live, registered device records),
device-record construction and teardown (dfu_prepare, dfu_cleanup), the
synchronous-over-asynchronous transfer engine (dfu_submit_urb with its
completion callback dfu_ctrlurb_done and timeout handler dfu_urb_timeout),
and the five protocol operations (dfu_do_switch, dfu_abort,
dfu_get_status, dfu_get_state, dfu_clr_status).

The asynchronous USB core is modelled by an environment record (UrbEnv)
that fixes, for one call, whether URB allocation succeeds, whether
usb_submit_urb accepts the submission, whether the completion arrives
before the bounded wait elapses, and the status, byte count and response
data the completion callback delivers.  The observable actions of one
dfu_submit_urb call are recorded as an event trace.
-/

namespace Usbdfu

/-- Error number ENODEV from errno.h; the driver returns -ENODEV. -/
def ENODEV : Int := 19

/-- Error number ENOMEM from errno.h; the driver returns -ENOMEM. -/
def ENOMEM : Int := 12

/-- Modelled from the spec: the header usbdfu.h is not among the source
files; the DFU class request codes it defines are the standard DFU 1.1
values for DETACH, GETSTATUS, CLRSTATUS, GETSTATE and ABORT named by the
spec table of protocol operations. -/
def USB_DFU_DETACH : Nat := 0

/-- Modelled from the spec: standard DFU 1.1 request code GETSTATUS. -/
def USB_DFU_GETSTATUS : Nat := 3

/-- Modelled from the spec: standard DFU 1.1 request code CLRSTATUS. -/
def USB_DFU_CLRSTATUS : Nat := 4

/-- Modelled from the spec: standard DFU 1.1 request code GETSTATE. -/
def USB_DFU_GETSTATE : Nat := 5

/-- Modelled from the spec: standard DFU 1.1 request code ABORT. -/
def USB_DFU_ABORT : Nat := 6

/-- Modelled from the spec: the expected fixed length of the DFU
functional descriptor (the spec end-to-end example uses len = 9, the DFU
1.1 functional descriptor length). -/
def USB_DFU_FUNC_DSCLEN : Nat := 9

/-- Modelled from the spec: the expected descriptor type tag of the DFU
functional descriptor (the spec end-to-end example uses tag = 0x21). -/
def USB_DFU_FUNC_DSCTYP : Nat := 0x21

/-- Modelled from the spec: the sentinel status value written into the
result field before submission, so that a read before completion never
appears to be success (spec 4.4 step 4).  The exact numeric value lives
in the absent header usbdfu.h; -255 is used here, and no theorem below
depends on the exact value beyond it being one fixed nonzero constant. -/
def USB_DFU_ERROR_CODE : Int := -255

/-- The little-endian 16-bit store cpu_to_le16: the stored value is the
argument truncated to 16 bits, laid out low byte first on the wire. -/
def cpu_to_le16 (v : Nat) : Nat := v % 65536

/-- The two wire bytes, low byte first, of a little-endian 16-bit field. -/
def le16_to_bytes (v : Nat) : Nat × Nat := (v % 256, v / 256 % 256)

/-- Module parameters of usbdfu.c: max_dfus (default 8), urb_timeout in
milliseconds (default 200) and detach_timeout in milliseconds
(default 2000). -/
structure Config where
  max_dfus : Int
  urb_timeout : Nat
  detach_timeout : Nat
deriving Repr, DecidableEq

/-- The module parameter defaults from usbdfu.c lines 21 to 26. -/
def defaultCfg : Config := { max_dfus := 8, urb_timeout := 200, detach_timeout := 2000 }

/-- One matched USB interface as dfu_prepare reads it: the presence,
length and fields of the class specific functional descriptor attached
to the current altsetting, the interface number, and whether the bus
controller has a DMA mask. -/
structure Intf where
  fdscPresent : Bool
  fdscLen : Nat
  fdscTyp : Nat
  fdscAttr : Nat
  fdscTmout : Nat
  fdscXfersize : Nat
  intfnum : Nat
  dmaMask : Bool
deriving Repr, DecidableEq

/-- The per-interface device record struct dfu_device, with the fields
dfu_prepare populates (the borrowed framework handles intf and usbdev
are represented by the interface data already in Intf). -/
structure DfuDevice where
  index : Int
  attr : Nat
  dettmout : Nat
  xfersize : Nat
  intfnum : Nat
  dma : Bool
deriving Repr, DecidableEq

/-- The driver-global state: the atomic counter dfu_index (initialised
to -1 by ATOMIC_INIT) and the list of live device records, in the order
they were registered with usb_set_intfdata. -/
structure DriverState where
  dfu_index : Int
  live : List DfuDevice
deriving Repr, DecidableEq

/-- The state at module load: counter -1, no live device. -/
def emptyState : DriverState := { dfu_index := -1, live := [] }

/-- The number of slots currently consumed: the counter plus one. -/
def slotCount (s : DriverState) : Int := s.dfu_index + 1

/-- The descriptor validation of dfu_prepare lines 251 to 252: the
descriptor is present, its length is USB_DFU_FUNC_DSCLEN and its type
tag is USB_DFU_FUNC_DSCTYP. -/
def validDesc (intf : Intf) : Bool :=
  intf.fdscPresent && intf.fdscLen == USB_DFU_FUNC_DSCLEN &&
    intf.fdscTyp == USB_DFU_FUNC_DSCTYP

/-- dfu_prepare, usbdfu.c lines 241 to 290.  memOk states whether the
kmalloc of the device record succeeds.  Returns the result (the new
record, or the error code) together with the driver state after the
call: the counter after atomic_inc_return and any rollback, and the live
list after any usb_set_intfdata registration. -/
def dfu_prepare (cfg : Config) (memOk : Bool) (intf : Intf) (s : DriverState) :
    Except Int DfuDevice × DriverState :=
  if !(validDesc intf) then
    (Except.error (-ENODEV), s)
  else
    let index := s.dfu_index + 1
    let s1 : DriverState := { s with dfu_index := index }
    if cfg.max_dfus ≤ index then
      (Except.error (-ENODEV), { s1 with dfu_index := s1.dfu_index - 1 })
    else if !memOk then
      (Except.error (-ENOMEM), { s1 with dfu_index := s1.dfu_index - 1 })
    else
      let dfudev : DfuDevice := {
        index := index,
        attr := intf.fdscAttr,
        dettmout := intf.fdscTmout % 65536,
        xfersize := intf.fdscXfersize % 65536,
        intfnum := intf.intfnum,
        dma := intf.dmaMask }
      (Except.ok dfudev, { s1 with live := s1.live ++ [dfudev] })

/-- dfu_cleanup, usbdfu.c lines 293 to 298: clear the intfdata
association of the i-th live record (the record of the disconnecting
interface), free it, and atomically decrement the counter. -/
def dfu_cleanup (i : Nat) (s : DriverState) : DriverState :=
  { dfu_index := s.dfu_index - 1, live := s.live.eraseIdx i }

/-- One attach or detach event delivered by the USB core: attach carries
the matched interface (and whether kmalloc succeeds), detach names the
position of the disconnecting live record. -/
inductive DriverOp where
  | attach (memOk : Bool) (intf : Intf)
  | detach (i : Nat)
deriving Repr, DecidableEq

/-- The driver state after one attach or detach event. -/
def driverStep (cfg : Config) (s : DriverState) : DriverOp → DriverState
  | DriverOp.attach m intf => (dfu_prepare cfg m intf s).2
  | DriverOp.detach i => dfu_cleanup i s

/-- The driver state after a sequence of attach and detach events. -/
def runOps (cfg : Config) : List DriverOp → DriverState → DriverState
  | [], s => s
  | op :: rest, s => runOps cfg rest (driverStep cfg s op)

/-- The driver state after a sequence of attach events that all find
memory available. -/
def runPrepares (cfg : Config) : List Intf → DriverState → DriverState
  | [], s => s
  | intf :: rest, s => runPrepares cfg rest (dfu_prepare cfg true intf s).2

/-- Whether a dfu_prepare result is success. -/
def prepOk (r : Except Int DfuDevice) : Bool :=
  match r with
  | Except.ok _ => true
  | Except.error _ => false

/-- A valid functional descriptor as in the spec end-to-end example
(tag 0x21, length 9, attr 0x0d, timeout 255, xfersize 1024), attached to
interface number n. -/
def sampleIntf (n : Nat) : Intf :=
  { fdscPresent := true, fdscLen := 9, fdscTyp := 0x21, fdscAttr := 0x0d,
    fdscTmout := 255, fdscXfersize := 1024, intfnum := n, dmaMask := true }

/-- An interface whose functional descriptor has the wrong length. -/
def badIntf : Intf :=
  { fdscPresent := true, fdscLen := 8, fdscTyp := 0x21, fdscAttr := 0x0d,
    fdscTmout := 255, fdscXfersize := 1024, intfnum := 0, dmaMask := true }

/-- Attach two interfaces, disconnect the first, attach a third. -/
def c1Ops : List DriverOp :=
  [DriverOp.attach true (sampleIntf 0), DriverOp.attach true (sampleIntf 1),
   DriverOp.detach 0, DriverOp.attach true (sampleIntf 2)]

/-- A driver state whose counter has reached the default capacity. -/
def fullState : DriverState := { dfu_index := 7, live := [] }

/-- The direction and target of a control transfer: usb_sndctrlpipe or
usb_rcvctrlpipe on endpoint 0 of the owning device. -/
inductive Pipe where
  | sndctrl
  | rcvctrl
deriving Repr, DecidableEq

/-- What the buff pointer of a dfu_control aims at: NULL, the embedded
6-byte dfuStatus block, or the embedded 1-byte dfuState buffer. -/
inductive BuffPtr where
  | nullBuff
  | statusBuf
  | stateBuf
deriving Repr, DecidableEq

/-- The 8-byte setup packet struct usb_ctrlrequest; the 16-bit fields
hold the values stored through cpu_to_le16, laid out little-endian on
the wire. -/
structure UsbCtrlRequest where
  bRequestType : Nat
  bRequest : Nat
  wValue : Nat
  wIndex : Nat
  wLength : Nat
deriving Repr, DecidableEq

/-- The per-call request container struct dfu_control: the setup packet,
pipe, payload pointer and length, whether a caller-supplied URB is
present, the result status, the transferred byte count, and the embedded
1-byte state buffer (the 6-byte status block is represented only by the
buff pointer, no claim reads its content). -/
structure DfuControl where
  req : UsbCtrlRequest
  pipe : Pipe
  buff : BuffPtr
  len : Nat
  urb : Bool
  status : Int
  nxfer : Nat
  dfuState : Nat
deriving Repr, DecidableEq

/-- The behaviour of the asynchronous USB core during one dfu_submit_urb
call: whether usb_alloc_urb succeeds, the usb_submit_urb return value
(0 = accepted), whether the completion arrives before the bounded wait
elapses, and the terminal status, byte count and response data byte the
completion delivers. -/
structure UrbEnv where
  allocOk : Bool
  submitResult : Int
  completeInTime : Bool
  cbStatus : Int
  cbLen : Nat
  dataByte : Nat
deriving Repr, DecidableEq

/-- The observable actions of one dfu_submit_urb call, in order. -/
inductive Ev where
  | allocUrb
  | submitUrb
  | waitTimeoutHit
  | timeoutElapsed
  | unlinkUrb
  | waitUninterruptible
  | callbackDone (st : Int) (n : Nat)
  | freeUrb
deriving Repr, DecidableEq

/-- dfu_ctrlurb_done, usbdfu.c lines 41 to 49: the completion callback
copies the URB status and actual length into the container and
completes ctrl.urbdone. -/
def dfu_ctrlurb_done (urbStatus : Int) (actualLength : Nat) (ctrl : DfuControl) : DfuControl :=
  { ctrl with status := urbStatus, nxfer := actualLength }

/-- The data stage performed by the USB core while the URB is live: for
an IN transfer aimed at the embedded state buffer, the response byte is
stored there.  No claim reads the 6-byte status block, so statusBuf is
left abstract. -/
def deviceWrite (env : UrbEnv) (ctrl : DfuControl) : DfuControl :=
  match ctrl.buff with
  | BuffPtr.stateBuf => { ctrl with dfuState := env.dataByte % 256 }
  | _ => ctrl

/-- The tail of dfu_submit_urb, lines 226 to 237: free the URB when this
call allocated it, then return ACCESS_ONCE of the container status. -/
def submit_finish (alloc : Bool) (ctrl : DfuControl) (tr : List Ev) :
    Int × DfuControl × List Ev :=
  let ctrl2 := if alloc then { ctrl with urb := false } else ctrl
  (ctrl2.status, ctrl2, tr ++ if alloc then [Ev.freeUrb] else [])

/-- dfu_submit_urb, usbdfu.c lines 196 to 238, together with the timeout
handler dfu_urb_timeout, lines 51 to 61.  Allocate a URB when the
container carries none (returning -ENOMEM when that fails), fill it,
re-arm the completion, pre-set the status to the USB_DFU_ERROR_CODE
sentinel, and submit.  On acceptance wait with the urb_timeout bound; if
the completion arrives in time the callback has written status and byte
count; otherwise unlink the URB once and wait without any further
timeout until the callback fires.  On rejection neither wait nor unlink
happens.  Finally free an URB owned by this call and return the
container status. -/
def dfu_submit_urb (env : UrbEnv) (ctrlIn : DfuControl) : Int × DfuControl × List Ev :=
  let alloc := !ctrlIn.urb
  if alloc && !env.allocOk then
    (-ENOMEM, ctrlIn, [])
  else
    let allocEv := if alloc then [Ev.allocUrb] else []
    let ctrl : DfuControl := { ctrlIn with urb := true, status := USB_DFU_ERROR_CODE }
    if env.submitResult = 0 then
      if env.completeInTime then
        let ctrl2 := dfu_ctrlurb_done env.cbStatus env.cbLen (deviceWrite env ctrl)
        submit_finish alloc ctrl2
          (allocEv ++ [Ev.submitUrb, Ev.callbackDone env.cbStatus env.cbLen,
            Ev.waitTimeoutHit])
      else
        let ctrl2 := dfu_ctrlurb_done env.cbStatus env.cbLen (deviceWrite env ctrl)
        submit_finish alloc ctrl2
          (allocEv ++ [Ev.submitUrb, Ev.timeoutElapsed, Ev.unlinkUrb,
            Ev.callbackDone env.cbStatus env.cbLen, Ev.waitUninterruptible])
    else
      submit_finish alloc ctrl (allocEv ++ [Ev.submitUrb])

/-- The request-template fill of dfu_do_switch, usbdfu.c lines 67 to 77:
the detach request with wValue the smaller of the device-declared detach
timeout and the configured detach_timeout. -/
def dfu_do_switch_fill (cfg : Config) (dfudev : DfuDevice) (ctrl : DfuControl) : DfuControl :=
  let tmout := if cfg.detach_timeout < dfudev.dettmout then cfg.detach_timeout
    else dfudev.dettmout
  { ctrl with
    req :=
      { bRequestType := 0x21,
        bRequest := USB_DFU_DETACH,
        wIndex := cpu_to_le16 dfudev.intfnum,
        wValue := cpu_to_le16 tmout,
        wLength := 0 },
    pipe := Pipe.sndctrl, buff := BuffPtr.nullBuff, len := 0, urb := false }

/-- dfu_do_switch, usbdfu.c lines 63 to 82. -/
def dfu_do_switch (env : UrbEnv) (cfg : Config) (dfudev : DfuDevice) (ctrl : DfuControl) :
    Int × DfuControl × List Ev :=
  dfu_submit_urb env (dfu_do_switch_fill cfg dfudev ctrl)

/-- The request-template fill of dfu_abort, usbdfu.c lines 303 to 310.
Faithful to the source: bRequestType, bRequest, wValue and wLength are
stored, but wIndex is not assigned and keeps the prior content of the
container. -/
def dfu_abort_fill (dfudev : DfuDevice) (ctrl : DfuControl) : DfuControl :=
  { ctrl with
    req :=
      { ctrl.req with
        bRequestType := 0x21,
        bRequest := USB_DFU_ABORT,
        wValue := 0,
        wLength := 0 },
    pipe := Pipe.sndctrl, buff := BuffPtr.nullBuff, len := 0, urb := false }

/-- dfu_abort, usbdfu.c lines 301 to 312. -/
def dfu_abort (env : UrbEnv) (dfudev : DfuDevice) (ctrl : DfuControl) :
    Int × DfuControl × List Ev :=
  dfu_submit_urb env (dfu_abort_fill dfudev ctrl)

/-- The request-template fill of dfu_get_status, usbdfu.c lines 319
to 327. -/
def dfu_get_status_fill (dfudev : DfuDevice) (ctrl : DfuControl) : DfuControl :=
  { ctrl with
    req :=
      { bRequestType := 0xa1,
        bRequest := USB_DFU_GETSTATUS,
        wIndex := cpu_to_le16 dfudev.intfnum,
        wValue := 0,
        wLength := cpu_to_le16 6 },
    pipe := Pipe.rcvctrl, buff := BuffPtr.statusBuf, len := 6, urb := false }

/-- dfu_get_status, usbdfu.c lines 315 to 331. -/
def dfu_get_status (env : UrbEnv) (dfudev : DfuDevice) (ctrl : DfuControl) :
    Int × DfuControl × List Ev :=
  dfu_submit_urb env (dfu_get_status_fill dfudev ctrl)

/-- The request-template fill of dfu_get_state, usbdfu.c lines 338
to 346. -/
def dfu_get_state_fill (dfudev : DfuDevice) (ctrl : DfuControl) : DfuControl :=
  { ctrl with
    req :=
      { bRequestType := 0xa1,
        bRequest := USB_DFU_GETSTATE,
        wIndex := cpu_to_le16 dfudev.intfnum,
        wValue := 0,
        wLength := cpu_to_le16 1 },
    pipe := Pipe.rcvctrl, buff := BuffPtr.stateBuf, len := 1, urb := false }

/-- dfu_get_state, usbdfu.c lines 334 to 352: submit, and when the
status is 0 overload the return value with the decoded state byte. -/
def dfu_get_state (env : UrbEnv) (dfudev : DfuDevice) (ctrl : DfuControl) :
    Int × DfuControl × List Ev :=
  let r := dfu_submit_urb env (dfu_get_state_fill dfudev ctrl)
  if r.1 = 0 then ((r.2.1.dfuState : Int), r.2.1, r.2.2) else r

/-- The request-template fill of dfu_clr_status, usbdfu.c lines 356
to 364. -/
def dfu_clr_status_fill (dfudev : DfuDevice) (ctrl : DfuControl) : DfuControl :=
  { ctrl with
    req :=
      { bRequestType := 0x21,
        bRequest := USB_DFU_CLRSTATUS,
        wIndex := cpu_to_le16 dfudev.intfnum,
        wValue := 0,
        wLength := 0 },
    pipe := Pipe.sndctrl, buff := BuffPtr.nullBuff, len := 0, urb := false }

/-- dfu_clr_status, usbdfu.c lines 354 to 366. -/
def dfu_clr_status (env : UrbEnv) (dfudev : DfuDevice) (ctrl : DfuControl) :
    Int × DfuControl × List Ev :=
  dfu_submit_urb env (dfu_clr_status_fill dfudev ctrl)

/-- A container fresh from kmalloc whose prior contents hold wIndex 7, a
stale value from an earlier owner of the memory. -/
def staleCtrl : DfuControl :=
  { req := { bRequestType := 0, bRequest := 0, wValue := 0, wIndex := 7, wLength := 0 },
    pipe := Pipe.sndctrl, buff := BuffPtr.nullBuff, len := 0, urb := false,
    status := 0, nxfer := 0, dfuState := 0 }

/-- A device record on interface number 3. -/
def dev3 : DfuDevice :=
  { index := 0, attr := 0x0d, dettmout := 255, xfersize := 1024, intfnum := 3, dma := true }

/-- A device record declaring a 5000 ms detach timeout. -/
def dev5000 : DfuDevice :=
  { index := 0, attr := 0x0d, dettmout := 5000, xfersize := 1024, intfnum := 0, dma := true }

/-- An environment whose asynchronous layer rejects the submission with
-19 (-ENODEV). -/
def rejectEnv : UrbEnv :=
  { allocOk := true, submitResult := -19, completeInTime := true,
    cbStatus := 0, cbLen := 0, dataByte := 0 }

/-- An environment whose submission is accepted but whose completion
does not arrive before the bounded wait elapses; the callback then
reports the cancellation status -104 (-ECONNRESET). -/
def timeoutEnv : UrbEnv :=
  { allocOk := true, submitResult := 0, completeInTime := false,
    cbStatus := -104, cbLen := 0, dataByte := 0 }

/-- An environment whose transfer completes in time with status 0,
6 transferred bytes, and a response data byte of 2 (dfuIDLE). -/
def okEnv : UrbEnv :=
  { allocOk := true, submitResult := 0, completeInTime := true,
    cbStatus := 0, cbLen := 6, dataByte := 2 }

/-- An environment whose transfer completes in time but with the bus
error status -71 (-EPROTO) and no data. -/
def failEnv : UrbEnv :=
  { allocOk := true, submitResult := 0, completeInTime := true,
    cbStatus := -71, cbLen := 0, dataByte := 0 }

theorem dfu_prepare_success_count (cfg : Config) (intf : Intf) (s : DriverState)
    (hv : validDesc intf = true) (hroom : slotCount s < cfg.max_dfus) :
    slotCount (dfu_prepare cfg true intf s).2 = slotCount s + 1 ∧
    prepOk (dfu_prepare cfg true intf s).1 = true := by
  have hfull : ¬ cfg.max_dfus ≤ s.dfu_index + 1 := by
    unfold slotCount at hroom; omega
  simp [dfu_prepare, hv, hfull, slotCount, prepOk]

theorem runPrepares_slotCount (cfg : Config) (intfs : List Intf) (s : DriverState)
    (hv : ∀ i ∈ intfs, validDesc i = true)
    (hb : slotCount s + intfs.length ≤ cfg.max_dfus) :
    slotCount (runPrepares cfg intfs s) = slotCount s + intfs.length := by
  induction intfs generalizing s with
  | nil => simp [runPrepares]
  | cons a l ih =>
    have hva : validDesc a = true := hv a (List.mem_cons_self a l)
    have hroom : slotCount s < cfg.max_dfus := by
      simp only [List.length_cons] at hb
      push_cast at hb
      omega
    have hsucc := (dfu_prepare_success_count cfg a s hva hroom).1
    have hrest := ih (dfu_prepare cfg true a s).2
      (fun i hi => hv i (List.mem_cons_of_mem a hi))
      (by rw [hsucc]; simp only [List.length_cons] at hb ⊢; push_cast at hb ⊢; omega)
    rw [runPrepares, hrest, hsucc]
    simp only [List.length_cons]
    push_cast
    omega

/-- C1: the slot allocator is a bare counter, so a detach of any device
other than the most recently attached one lets the counter hand an index
still held by a live device to the next attach.  After attaching two
interfaces, disconnecting the first, and attaching a third, two distinct
live device records both hold index 1: the claimed uniqueness invariant
fails on the code. -/
theorem index_reused_while_live :
    (runOps defaultCfg c1Ops emptyState).live.map DfuDevice.index = [1, 1] ∧
    ∃ a ∈ (runOps defaultCfg c1Ops emptyState).live,
      ∃ b ∈ (runOps defaultCfg c1Ops emptyState).live,
        a ≠ b ∧ a.index = b.index := by decide

/-- C6: whenever the functional descriptor is absent, has the wrong
length, or carries the wrong type tag, dfu_prepare returns -ENODEV and
the driver state is exactly the input state: no device record is
created, nothing is registered, and the allocator counter is
untouched. -/
theorem invalid_descriptor_no_slot (cfg : Config) (memOk : Bool) (intf : Intf)
    (s : DriverState) (h : validDesc intf = false) :
    dfu_prepare cfg memOk intf s = (Except.error (-ENODEV), s) := by
  simp [dfu_prepare, h]

theorem invalid_descriptor_no_slot_witness :
    validDesc badIntf = false ∧
    dfu_prepare defaultCfg true badIntf emptyState = (Except.error (-ENODEV), emptyState) :=
  ⟨by decide, invalid_descriptor_no_slot defaultCfg true badIntf emptyState (by decide)⟩

/-- C10: every failing path of dfu_prepare, including the kmalloc
failure path, leaves the driver state exactly as it was: the counter is
rolled back where it had been incremented and no record is registered.
In particular a kmalloc failure on a valid descriptor with a free slot
yields -ENOMEM with unchanged state. -/
theorem prepare_failure_no_leak :
    (∀ (cfg : Config) (memOk : Bool) (intf : Intf) (s : DriverState) (e : Int),
      (dfu_prepare cfg memOk intf s).1 = Except.error e →
      (dfu_prepare cfg memOk intf s).2 = s) ∧
    (∀ (cfg : Config) (intf : Intf) (s : DriverState), validDesc intf = true →
      slotCount s < cfg.max_dfus →
      dfu_prepare cfg false intf s = (Except.error (-ENOMEM), s)) := by
  constructor
  · intro cfg memOk intf s e h
    obtain ⟨d, l⟩ := s
    by_cases hv : validDesc intf = true
    · by_cases hfull : cfg.max_dfus ≤ d + 1
      · simp [dfu_prepare, hv, hfull]
      · by_cases hm : memOk = true
        · simp [dfu_prepare, hv, hfull, hm] at h
        · simp only [Bool.not_eq_true] at hm
          simp [dfu_prepare, hv, hfull, hm]
    · simp only [Bool.not_eq_true] at hv
      simp [dfu_prepare, hv]
  · intro cfg intf s hv hroom
    obtain ⟨d, l⟩ := s
    have hfull : ¬ cfg.max_dfus ≤ d + 1 := by
      simp only [slotCount] at hroom; omega
    simp [dfu_prepare, hv, hfull]

theorem prepare_failure_no_leak_witness :
    (dfu_prepare defaultCfg false (sampleIntf 0) emptyState).1 = Except.error (-ENOMEM) ∧
    (dfu_prepare defaultCfg false (sampleIntf 0) emptyState).2 = emptyState ∧
    dfu_prepare defaultCfg false (sampleIntf 0) emptyState =
      (Except.error (-ENOMEM), emptyState) :=
  ⟨rfl,
   prepare_failure_no_leak.1 defaultCfg false (sampleIntf 0) emptyState (-ENOMEM) rfl,
   prepare_failure_no_leak.2 defaultCfg (sampleIntf 0) emptyState (by decide) (by decide)⟩

/-- C5: starting from the empty pool, N successful prepares without
cleanup leave slot count N; every cleanup decrements the count by
exactly one; a prepare hitting the capacity bound fails with -ENODEV and
rolls the counter back, leaving the state unchanged; and on a valid
descriptor with memory available, prepare succeeds iff a slot is
available. -/
theorem slot_count_correct :
    (∀ (cfg : Config) (intfs : List Intf),
      (∀ i ∈ intfs, validDesc i = true) →
      (intfs.length : Int) ≤ cfg.max_dfus →
      slotCount (runPrepares cfg intfs emptyState) = intfs.length) ∧
    (∀ (i : Nat) (s : DriverState), slotCount (dfu_cleanup i s) = slotCount s - 1) ∧
    (∀ (cfg : Config) (memOk : Bool) (intf : Intf) (s : DriverState),
      validDesc intf = true → cfg.max_dfus ≤ slotCount s →
      dfu_prepare cfg memOk intf s = (Except.error (-ENODEV), s)) ∧
    (∀ (cfg : Config) (intf : Intf) (s : DriverState), validDesc intf = true →
      (prepOk (dfu_prepare cfg true intf s).1 = true ↔ slotCount s < cfg.max_dfus)) := by
  refine ⟨?_, ?_, ?_, ?_⟩
  · intro cfg intfs hv hb
    have h0 : slotCount emptyState = 0 := rfl
    have := runPrepares_slotCount cfg intfs emptyState hv (by rw [h0]; omega)
    rw [this, h0]
    omega
  · intro i s
    simp [dfu_cleanup, slotCount]
  · intro cfg memOk intf s hv hfull
    obtain ⟨d, l⟩ := s
    unfold slotCount at hfull
    simp only at hfull
    simp [dfu_prepare, hv, hfull]
  · intro cfg intf s hv
    constructor
    · intro hok
      by_contra hroom
      push_neg at hroom
      have hfull : cfg.max_dfus ≤ s.dfu_index + 1 := by
        unfold slotCount at hroom; omega
      simp [dfu_prepare, hv, hfull, prepOk] at hok
    · intro hroom
      exact (dfu_prepare_success_count cfg intf s hv hroom).2

theorem slot_count_correct_witness :
    slotCount (runPrepares defaultCfg [sampleIntf 0, sampleIntf 1] emptyState) = 2 ∧
    slotCount (dfu_cleanup 0 fullState) = slotCount fullState - 1 ∧
    dfu_prepare defaultCfg true (sampleIntf 0) fullState = (Except.error (-ENODEV), fullState) ∧
    (prepOk (dfu_prepare defaultCfg true (sampleIntf 0) emptyState).1 = true ↔
      slotCount emptyState < defaultCfg.max_dfus) :=
  ⟨slot_count_correct.1 defaultCfg [sampleIntf 0, sampleIntf 1] (by decide) (by decide),
   slot_count_correct.2.1 0 fullState,
   slot_count_correct.2.2.1 defaultCfg true (sampleIntf 0) fullState (by decide) (by decide),
   slot_count_correct.2.2.2 defaultCfg (sampleIntf 0) emptyState (by decide)⟩

/-- C2: when the submission is accepted but the completion does not
arrive before the bounded wait elapses, the engine unlinks the URB
exactly once; the completion callback then fires and only afterwards
does the final, untimed wait return, so the call returns the status the
callback wrote.  The trace shows one unlinkUrb, immediately followed by
the callback and the uninterruptible wait, the bounded wait was never
satisfied, and the returned value is the callback status. -/
theorem submit_timeout_unlinks_once (env : UrbEnv) (ctrl : DfuControl)
    (halloc : env.allocOk = true) (hsub : env.submitResult = 0)
    (htime : env.completeInTime = false) :
    ∃ l1 l2,
      (dfu_submit_urb env ctrl).2.2 =
        l1 ++ Ev.unlinkUrb :: Ev.callbackDone env.cbStatus env.cbLen ::
          Ev.waitUninterruptible :: l2 ∧
      Ev.unlinkUrb ∉ l1 ∧ Ev.unlinkUrb ∉ l2 ∧
      Ev.waitUninterruptible ∉ l1 ∧
      Ev.waitTimeoutHit ∉ (dfu_submit_urb env ctrl).2.2 ∧
      (dfu_submit_urb env ctrl).1 = env.cbStatus := by
  cases hurb : ctrl.urb with
  | true =>
    refine ⟨[Ev.submitUrb, Ev.timeoutElapsed], [], ?_, by decide, by decide, by decide,
      ?_, ?_⟩ <;>
      simp [dfu_submit_urb, submit_finish, dfu_ctrlurb_done, halloc, hsub, htime, hurb]
  | false =>
    refine ⟨[Ev.allocUrb, Ev.submitUrb, Ev.timeoutElapsed], [Ev.freeUrb], ?_, by decide,
      by decide, by decide, ?_, ?_⟩ <;>
      simp [dfu_submit_urb, submit_finish, dfu_ctrlurb_done, halloc, hsub, htime, hurb]

theorem submit_timeout_unlinks_once_witness :
    ∃ l1 l2,
      (dfu_submit_urb timeoutEnv staleCtrl).2.2 =
        l1 ++ Ev.unlinkUrb :: Ev.callbackDone timeoutEnv.cbStatus timeoutEnv.cbLen ::
          Ev.waitUninterruptible :: l2 ∧
      Ev.unlinkUrb ∉ l1 ∧ Ev.unlinkUrb ∉ l2 ∧
      Ev.waitUninterruptible ∉ l1 ∧
      Ev.waitTimeoutHit ∉ (dfu_submit_urb timeoutEnv staleCtrl).2.2 ∧
      (dfu_submit_urb timeoutEnv staleCtrl).1 = timeoutEnv.cbStatus :=
  submit_timeout_unlinks_once timeoutEnv staleCtrl rfl rfl rfl

/-- C3 (amended): when the asynchronous layer rejects the submission,
the engine performs no wait of either kind and no unlink, and the
callback never fires; but the value returned is the pre-set sentinel
USB_DFU_ERROR_CODE still sitting in the container status field, not the
rejection code the asynchronous layer reported. -/
theorem submit_rejection_no_wait (env : UrbEnv) (ctrl : DfuControl)
    (halloc : env.allocOk = true) (hsub : ¬ env.submitResult = 0) :
    (dfu_submit_urb env ctrl).1 = USB_DFU_ERROR_CODE ∧
    (dfu_submit_urb env ctrl).2.1.status = USB_DFU_ERROR_CODE ∧
    Ev.unlinkUrb ∉ (dfu_submit_urb env ctrl).2.2 ∧
    Ev.waitTimeoutHit ∉ (dfu_submit_urb env ctrl).2.2 ∧
    Ev.timeoutElapsed ∉ (dfu_submit_urb env ctrl).2.2 ∧
    Ev.waitUninterruptible ∉ (dfu_submit_urb env ctrl).2.2 ∧
    ∀ (st : Int) (n : Nat), Ev.callbackDone st n ∉ (dfu_submit_urb env ctrl).2.2 := by
  cases hurb : ctrl.urb <;>
    simp [dfu_submit_urb, submit_finish, halloc, hsub, hurb]

theorem submit_rejection_no_wait_witness :
    (dfu_submit_urb rejectEnv staleCtrl).1 = USB_DFU_ERROR_CODE ∧
    (dfu_submit_urb rejectEnv staleCtrl).2.1.status = USB_DFU_ERROR_CODE ∧
    Ev.unlinkUrb ∉ (dfu_submit_urb rejectEnv staleCtrl).2.2 ∧
    Ev.waitTimeoutHit ∉ (dfu_submit_urb rejectEnv staleCtrl).2.2 ∧
    Ev.timeoutElapsed ∉ (dfu_submit_urb rejectEnv staleCtrl).2.2 ∧
    Ev.waitUninterruptible ∉ (dfu_submit_urb rejectEnv staleCtrl).2.2 ∧
    ∀ (st : Int) (n : Nat), Ev.callbackDone st n ∉ (dfu_submit_urb rejectEnv staleCtrl).2.2 :=
  submit_rejection_no_wait rejectEnv staleCtrl rfl (by decide)

/-- C3 counterexample: with the asynchronous layer rejecting the
submission with -19, the call does not return -19 (it returns the
sentinel instead), refuting the claim that the rejection code reported
by the asynchronous layer is returned to the caller. -/
theorem submit_rejection_not_submission_code :
    rejectEnv.submitResult = -19 ∧
    (dfu_submit_urb rejectEnv staleCtrl).1 ≠ rejectEnv.submitResult := by decide

/-- C9: when the completion arrives before the bounded wait elapses, the
call returns exactly the status the callback wrote and the container
carries the callback byte count, and no unlink happens. -/
theorem submit_complete_in_time (env : UrbEnv) (ctrl : DfuControl)
    (halloc : env.allocOk = true) (hsub : env.submitResult = 0)
    (htime : env.completeInTime = true) :
    (dfu_submit_urb env ctrl).1 = env.cbStatus ∧
    (dfu_submit_urb env ctrl).2.1.status = env.cbStatus ∧
    (dfu_submit_urb env ctrl).2.1.nxfer = env.cbLen ∧
    Ev.unlinkUrb ∉ (dfu_submit_urb env ctrl).2.2 := by
  cases hurb : ctrl.urb <;>
    simp [dfu_submit_urb, submit_finish, dfu_ctrlurb_done, halloc, hsub, htime, hurb]

theorem submit_complete_in_time_witness :
    (dfu_submit_urb okEnv staleCtrl).1 = okEnv.cbStatus ∧
    (dfu_submit_urb okEnv staleCtrl).2.1.status = okEnv.cbStatus ∧
    (dfu_submit_urb okEnv staleCtrl).2.1.nxfer = okEnv.cbLen ∧
    Ev.unlinkUrb ∉ (dfu_submit_urb okEnv staleCtrl).2.2 :=
  submit_complete_in_time okEnv staleCtrl rfl rfl rfl

/-- C4: the four operations detach, get-status, get-state and
clear-status store the interface number of the owning device into
wIndex, and abort does fill type, code, wValue, wLength, payload pointer
and length as the claim states; but abort never assigns wIndex, so on a
container whose memory previously held wIndex 7 the abort request of a
device on interface 3 goes out with wIndex 7: the setup packet is not
fully determined by the owning device. -/
theorem abort_wIndex_left_stale :
    (dfu_abort_fill dev3 staleCtrl).req.bRequestType = 0x21 ∧
    (dfu_abort_fill dev3 staleCtrl).req.bRequest = USB_DFU_ABORT ∧
    (dfu_abort_fill dev3 staleCtrl).req.wValue = 0 ∧
    (dfu_abort_fill dev3 staleCtrl).req.wLength = 0 ∧
    (dfu_abort_fill dev3 staleCtrl).buff = BuffPtr.nullBuff ∧
    (dfu_abort_fill dev3 staleCtrl).len = 0 ∧
    (dfu_clr_status_fill dev3 staleCtrl).req.wIndex = cpu_to_le16 dev3.intfnum ∧
    (dfu_get_status_fill dev3 staleCtrl).req.wIndex = cpu_to_le16 dev3.intfnum ∧
    (dfu_get_state_fill dev3 staleCtrl).req.wIndex = cpu_to_le16 dev3.intfnum ∧
    (dfu_do_switch_fill defaultCfg dev3 staleCtrl).req.wIndex = cpu_to_le16 dev3.intfnum ∧
    (dfu_abort_fill dev3 staleCtrl).req.wIndex = staleCtrl.req.wIndex ∧
    (dfu_abort_fill dev3 staleCtrl).req.wIndex ≠ cpu_to_le16 dev3.intfnum := by decide

/-- C7: the detach request goes out with wValue the minimum of the
device-declared detach timeout and the configured detach_timeout, and
its two wire bytes are the little-endian encoding of that minimum. -/
theorem switch_wValue_is_min (cfg : Config) (dfudev : DfuDevice) (ctrl : DfuControl)
    (h : dfudev.dettmout < 65536) :
    (dfu_do_switch_fill cfg dfudev ctrl).req.wValue =
      min dfudev.dettmout cfg.detach_timeout ∧
    le16_to_bytes (dfu_do_switch_fill cfg dfudev ctrl).req.wValue =
      (min dfudev.dettmout cfg.detach_timeout % 256,
        min dfudev.dettmout cfg.detach_timeout / 256 % 256) := by
  have h1 : (dfu_do_switch_fill cfg dfudev ctrl).req.wValue =
      min dfudev.dettmout cfg.detach_timeout := by
    simp only [dfu_do_switch_fill, cpu_to_le16]
    split <;> omega
  exact ⟨h1, by rw [h1]; rfl⟩

theorem switch_wValue_is_min_witness :
    dev5000.dettmout < 65536 ∧
    (dfu_do_switch_fill defaultCfg dev5000 staleCtrl).req.wValue = 2000 :=
  ⟨by decide,
   ((switch_wValue_is_min defaultCfg dev5000 staleCtrl (by decide)).1).trans (by decide)⟩

/-- C8: when the transfer itself succeeds, get-state returns the decoded
single state byte from the 1-byte response; when the completion reports
a nonzero error status, that status is returned unchanged. -/
theorem get_state_returns_state_or_error (env : UrbEnv) (dfudev : DfuDevice)
    (ctrl : DfuControl) (halloc : env.allocOk = true) (hsub : env.submitResult = 0)
    (htime : env.completeInTime = true) :
    (env.cbStatus = 0 →
      (dfu_get_state env dfudev ctrl).1 = Int.ofNat (env.dataByte % 256)) ∧
    (¬ env.cbStatus = 0 →
      (dfu_get_state env dfudev ctrl).1 = env.cbStatus) := by
  constructor
  · intro h0
    simp [dfu_get_state, dfu_get_state_fill, dfu_submit_urb, submit_finish,
      dfu_ctrlurb_done, deviceWrite, halloc, hsub, htime, h0]
  · intro hne
    simp [dfu_get_state, dfu_get_state_fill, dfu_submit_urb, submit_finish,
      dfu_ctrlurb_done, deviceWrite, halloc, hsub, htime, hne]

theorem get_state_returns_state_or_error_witness :
    (dfu_get_state okEnv dev3 staleCtrl).1 = 2 ∧
    (dfu_get_state failEnv dev3 staleCtrl).1 = -71 :=
  ⟨(((get_state_returns_state_or_error okEnv dev3 staleCtrl rfl rfl rfl).1) rfl).trans
      (by decide),
   (((get_state_returns_state_or_error failEnv dev3 staleCtrl rfl rfl rfl).2)
      (by decide)).trans (by decide)⟩

end Usbdfu
